import Mathlib

/-!
Verification of the DARKV1 request-authentication and replay-protection layer.

Shallow embedding of:
- `src/app/auth/middleware.py` (`SecurityMiddleware.dispatch`, `AuthMiddleware.dispatch`)
- `src/app/utils/security.py` (`SecurityUtils.verify_hmac_signature`,
  `SecurityUtils.create_access_token`, `SecurityUtils.verify_token`)
- `src/app/utils/redis_client.py` (`AsyncRedisClient.setnx` / `expire`, fallback branch)
- the middleware stack assembled in `src/main.py`

External cryptographic primitives (HMAC-SHA256, SHA-256) are idealised as
injective keyed functions; the external `jwt` library is idealised as a
signed-container codec. Everything else is translated line by line from the
Python source.
-/

namespace DarkV1

/-- Body of an HTTP response: either the JSON error envelope
`JSONResponse(content={"error": msg})` produced by the middleware, or an
arbitrary payload produced by an inner handler. -/
inductive Body where
  | errorEnvelope (msg : String)
  | raw (payload : String)
deriving DecidableEq, Repr

/-- An HTTP response: status code, headers (ordered key/value list, as in a
Starlette `MutableHeaders`), body. -/
structure Response where
  status : Nat
  headers : List (String × String)
  body : Body
deriving DecidableEq, Repr

/-- `JSONResponse(status_code=code, content={"error": msg})` as built in
`AuthMiddleware.dispatch`. -/
def jsonError (code : Nat) (msg : String) : Response :=
  { status := code, headers := [], body := Body.errorEnvelope msg }

/-- `response.headers[k] = v`: dictionary-style assignment on the header list
(any previous binding of `k` is replaced). -/
def setHeader (hs : List (String × String)) (k v : String) : List (String × String) :=
  hs.filter (fun p => p.1 != k) ++ [(k, v)]

/-- `src/app/auth/middleware.py` lines 14-34, `SecurityMiddleware.dispatch`:
awaits `call_next`, then sets the seven hardening headers and the
`X-Process-Time` latency marker on the returned response. -/
def SecurityMiddleware.dispatch (processTime : String) (callNextResponse : Response) : Response :=
  { callNextResponse with
    headers :=
      setHeader (setHeader (setHeader (setHeader (setHeader (setHeader (setHeader (setHeader
        callNextResponse.headers
        "X-Content-Type-Options" "nosniff")
        "X-Frame-Options" "DENY")
        "X-XSS-Protection" "1; mode=block")
        "Strict-Transport-Security" "max-age=31536000; includeSubDomains")
        "Cache-Control" "no-cache, no-store, must-revalidate")
        "Pragma" "no-cache")
        "Expires" "0")
        "X-Process-Time" processTime }

/-- The claims carried by a JWT, as assembled in
`SecurityUtils.create_access_token` and read back in `AuthMiddleware.dispatch`
(`payload.get("sub")`, `payload.get("scope", [])`). -/
structure JwtClaims where
  sub : Option String
  scope : List String
  exp : Int
  iat : Int
  jti : String
deriving DecidableEq, Repr

/-- Idealisation of the token-string space of the external `jwt` library:
a token string is either the well-formed encoding of some claims under some
signing key (`jwt.encode(claims, key, algorithm="HS256")`, which is injective),
or a malformed string. -/
inductive Jwt where
  | signed (claims : JwtClaims) (key : String)
  | malformed (raw : String)
deriving DecidableEq, Repr

/-- Failure modes of `jwt.decode`. -/
inductive JwtFailure where
  | expiredSignature
  | invalidToken
deriving DecidableEq, Repr

/-- Idealisation of `jwt.decode(token, secret_key, algorithms=["HS256"])` at
current time `now`: signature verifies iff the token was encoded under
`secret_key`; an expired token (`exp <= now`, PyJWT's `_validate_exp`) raises
`ExpiredSignatureError`; anything else malformed or wrongly signed raises an
invalid-token error. -/
def jwtDecode (tok : Jwt) (secret_key : String) (now : Int) : Except JwtFailure JwtClaims :=
  match tok with
  | Jwt.malformed _ => Except.error JwtFailure.invalidToken
  | Jwt.signed claims key =>
    if key = secret_key then
      if claims.exp ≤ now then Except.error JwtFailure.expiredSignature
      else Except.ok claims
    else Except.error JwtFailure.invalidToken

/-- `src/app/utils/security.py` lines 46-59, `SecurityUtils.create_access_token`:
copies the caller's data (the login route passes `sub` and `scope`), sets
`exp = now + expires_delta` (default 15 minutes), `iat = now`, a fresh `jti`,
and encodes under `secret_key`. Time is in whole seconds. -/
def create_access_token (data_sub : Option String) (data_scope : List String)
    (secret_key : String) (expires_delta : Option Int) (now : Int) (jti : String) : Jwt :=
  let expire : Int :=
    match expires_delta with
    | some delta => now + delta
    | none => now + 15 * 60
  Jwt.signed { sub := data_sub, scope := data_scope, exp := expire, iat := now, jti := jti }
    secret_key

/-- An `HTTPException(status_code, detail)`. -/
structure HttpError where
  status_code : Nat
  detail : String
deriving DecidableEq, Repr

/-- `src/app/utils/security.py` lines 61-75, `SecurityUtils.verify_token`:
decodes the token; maps `ExpiredSignatureError` to a 401 "Token has expired"
and any other JWT failure to a 401 "Invalid token". -/
def verify_token (tok : Jwt) (secret_key : String) (now : Int) : Except HttpError JwtClaims :=
  match jwtDecode tok secret_key now with
  | Except.ok payload => Except.ok payload
  | Except.error JwtFailure.expiredSignature => Except.error ⟨401, "Token has expired"⟩
  | Except.error JwtFailure.invalidToken => Except.error ⟨401, "Invalid token"⟩

/-- Idealisation of `hmac.new(secret.encode(), msg.encode(), hashlib.sha256).hexdigest()`:
a keyed MAC, modelled as a function that is injective in the message for a
fixed key and injective in the key for a fixed message (ideal collision-free
MAC). -/
def hmacSha256Hexdigest (secret msg : String) : String :=
  secret ++ "#" ++ msg

/-- Idealisation of `hashlib.sha256(body).hexdigest()` as an injective digest
of the raw body bytes. -/
def sha256Hexdigest (s : String) : String :=
  "sha256-digest:" ++ s

/-- `src/app/utils/security.py` lines 36-43, `SecurityUtils.verify_hmac_signature`:
recomputes the MAC over the canonical string
`f"{method}\n{path}\n{timestamp}\n{body_hash}"` and compares with
`hmac.compare_digest` (functionally, string equality). -/
def verify_hmac_signature (secret method path timestamp body_hash signature : String) : Bool :=
  let string_to_sign := method ++ "\n" ++ path ++ "\n" ++ timestamp ++ "\n" ++ body_hash
  let expected := hmacSha256Hexdigest secret string_to_sign
  expected == signature

/-- Modelled from the spec: `sign(secret, method, path, timestamp, bodyHash)`
"computes a MAC over the canonical string `METHOD\nPATH\nTIMESTAMP\nBODYHASH`
joined by newline separators, using the client's shared secret". The source
repository contains only the verifying half (`verify_hmac_signature`);
the signing half is the client's obligation and is reconstructed here from
the spec's words. -/
def sign (secret method path timestamp bodyHash : String) : String :=
  hmacSha256Hexdigest secret (method ++ "\n" ++ path ++ "\n" ++ timestamp ++ "\n" ++ bodyHash)

/-- Python `s.startswith(pre)`: character-level prefix test. -/
def strStartswith (s pre : String) : Bool :=
  pre.data.isPrefixOf s.data

/-- Python `s.split(sep)` for a single-character separator: split on every
occurrence, keeping empty fields. -/
def splitChar (sep : Char) : List Char → List (List Char)
  | [] => [[]]
  | c :: cs =>
    match splitChar sep cs with
    | [] => if c = sep then [[], []] else [[c]]
    | r :: rs => if c = sep then [] :: r :: rs else (c :: r) :: rs

/-- Helper for `pyInt?`: reads a non-empty all-digit run into a number. -/
def parseNatDigits : List Char → Nat → Option Nat
  | [], acc => some acc
  | c :: rest, acc =>
    if c.isDigit then parseNatDigits rest (acc * 10 + (c.toNat - 48)) else none

/-- Python `int(s)` on a decimal string literal, optionally sign-prefixed
(the forms produced by `str(int(time.time()))`-style clients); other accepted
Python spellings (surrounding whitespace, `+`, underscores) are not modelled.
A `none` result models the raised `ValueError`. -/
def pyInt? (s : String) : Option Int :=
  match s.data with
  | [] => none
  | '-' :: rest =>
    match rest with
    | [] => none
    | _ => (parseNatDigits rest 0).map (fun n => -(n : Int))
  | cs => (parseNatDigits cs 0).map (fun n => (n : Int))

/-- Worker for `replaceAll`, structurally recursive on a fuel argument so that
it reduces inside the kernel; `fuel ≥ cs.length` makes the fuel inexhaustible. -/
def replaceAllFuel (pat repl : List Char) : Nat → List Char → List Char
  | 0, cs => cs
  | _ + 1, [] => []
  | fuel + 1, c :: rest =>
    if pat.isPrefixOf (c :: rest) then
      repl ++ replaceAllFuel pat repl fuel (rest.drop (pat.length - 1))
    else
      c :: replaceAllFuel pat repl fuel rest

/-- Python `s.replace(pat, repl)` for a non-empty pattern: replaces every
non-overlapping occurrence, scanning left to right. -/
def replaceAll (pat repl cs : List Char) : List Char :=
  replaceAllFuel pat repl cs.length cs

/-- `src/app/utils/redis_client.py` lines 34-41, fallback branch of
`AsyncRedisClient.setnx` (`self.connected == False`): insert the key into the
in-process map if absent and report whether this call inserted it. -/
def AsyncRedisClient.setnxFallback (cache : List String) (key : String) : Bool × List String :=
  if key ∈ cache then (false, cache) else (true, key :: cache)

/-- `src/app/utils/redis_client.py` lines 43-46, fallback branch of
`AsyncRedisClient.expire`: returns `True` without touching the in-process
map — scheduling expiry is a no-op when disconnected. -/
def AsyncRedisClient.expireFallback (cache : List String) (key : String) (seconds : Int) :
    Bool × List String :=
  (true, cache)

/-- An inbound HTTP request as seen by `AuthMiddleware.dispatch`: method,
path, the four headers the middleware reads (each `request.headers.get(...)`,
`none` when absent), and the raw body. -/
structure InboundRequest where
  method : String
  path : String
  xRequestId : Option String
  authorization : Option String
  xSignature : Option String
  xTimestamp : Option String
  body : String
deriving DecidableEq, Repr

/-- The ambient state `AuthMiddleware.dispatch` consults besides the request:
the clock, the server signing key, a decoding view of token strings
(`tokenView s` is how the `jwt` library parses the string `s`), and the
client store collaborator (present per the spec; the code never consults it,
see `middleware.py` lines 98-99). -/
structure AuthEnv where
  now : Int
  secretKey : String
  tokenView : String → Jwt
  clientSecretStore : String → Option String

/-- `src/app/auth/middleware.py` line 39: the excluded-path list configured in
`AuthMiddleware.__init__`. -/
def AuthMiddleware.excluded_paths : List String :=
  ["/", "/docs", "/redoc", "/openapi.json", "/health", "/auth/register", "/auth/login"]

/-- `src/app/auth/middleware.py` line 45: the exemption test
`any(path.startswith(excluded) for excluded in self.excluded_paths)`. -/
def AuthMiddleware.pathExempt (path : String) : Bool :=
  AuthMiddleware.excluded_paths.any (fun excluded => strStartswith path excluded)

/-- `src/app/auth/middleware.py` lines 98-117: the body of the HMAC branch
after the timestamp-window check has passed. The client secret is the
hard-coded `"demo-secret"` (line 99: "In real implementation, fetch from DB");
the wire signature has every occurrence of `"sha256="` removed
(`signature.replace("sha256=", "")`). -/
def AuthMiddleware.hmacVerifyStep (req : InboundRequest) (timestamp signature : String)
    (callNextResponse : Response) : Response :=
  let client_secret := "demo-secret"
  let body_hash := sha256Hexdigest req.body
  if verify_hmac_signature client_secret req.method req.path timestamp body_hash
      (String.mk (replaceAll "sha256=".data [] signature.data)) then
    callNextResponse
  else
    jsonError 401 "Invalid HMAC signature"

/-- `src/app/auth/middleware.py` lines 84-119: the optional HMAC check, run
after successful token verification. Performed only when both the
`X-Signature` and `X-Timestamp` headers are present and non-empty (Python
truthiness of `if signature and timestamp`). `int(timestamp)` is modelled by
`String.toInt?`; a parse failure propagates to the catch-all handler
(500 "Internal server error"). Skew over 30 seconds is rejected with 400. -/
def AuthMiddleware.hmacPhase (req : InboundRequest) (env : AuthEnv)
    (callNextResponse : Response) : Response :=
  match req.xSignature, req.xTimestamp with
  | some signature, some timestamp =>
    if signature == "" || timestamp == "" then callNextResponse
    else
      match pyInt? timestamp with
      | none => jsonError 500 "Internal server error"
      | some request_time =>
        if (env.now - request_time).natAbs > 30 then
          jsonError 400 "Request timestamp out of allowed window"
        else
          AuthMiddleware.hmacVerifyStep req timestamp signature callNextResponse
  | _, _ => callNextResponse

/-- `src/app/auth/middleware.py` lines 68-119: the bearer check. Requires an
`Authorization` header starting with `"Bearer "`; extracts the token with
`auth_header.split(" ")[1]`; verifies it; an `HTTPException` raised by
`verify_token` becomes a JSON error with the same status and detail; on
success (the payload is attached to `request.state` — control state this
embedding does not track) control proceeds to the optional HMAC check. -/
def AuthMiddleware.authPhase (req : InboundRequest) (env : AuthEnv)
    (callNextResponse : Response) : Response :=
  match req.authorization with
  | none => jsonError 401 "Authorization header required"
  | some auth_header =>
    if strStartswith auth_header "Bearer " then
      let token := String.mk ((splitChar ' ' auth_header.data).getD 1 [])
      match verify_token (env.tokenView token) env.secretKey env.now with
      | Except.error e => jsonError e.status_code e.detail
      | Except.ok _payload => AuthMiddleware.hmacPhase req env callNextResponse
    else
      jsonError 401 "Authorization header required"

/-- `src/app/auth/middleware.py` lines 41-131, `AuthMiddleware.dispatch`.
The results of the two awaited cache calls are passed explicitly:
`setnxResult`/`expireResult` are `Except.error ()` when the call raised.
`if not request_id:` is Python truthiness, denying with 400 when the
`X-Request-ID` header is absent or present but empty. The `try`/`except`
around the replay check logs a raised cache error and falls through to the
bearer check; a `setnx` returning `False` denies with the replay error. -/
def AuthMiddleware.dispatch (req : InboundRequest) (env : AuthEnv)
    (setnxResult expireResult : Except Unit Bool) (callNextResponse : Response) : Response :=
  if AuthMiddleware.pathExempt req.path then
    callNextResponse
  else
    match req.xRequestId with
    | none => jsonError 400 "X-Request-ID header is required"
    | some request_id =>
      if request_id == "" then
        jsonError 400 "X-Request-ID header is required"
      else
        match setnxResult with
        | Except.error _ => AuthMiddleware.authPhase req env callNextResponse
        | Except.ok false => jsonError 400 "Request ID already used (replay detected)"
        | Except.ok true =>
          match expireResult with
          | Except.error _ => AuthMiddleware.authPhase req env callNextResponse
          | Except.ok _ => AuthMiddleware.authPhase req env callNextResponse

/-- `AuthMiddleware.dispatch` running against the in-process fallback map
(`redis_client.connected == False`): the cache calls are served by
`setnxFallback`/`expireFallback` (which never raise) on the key
`f"rid:{request_id}"`, and the updated map is threaded through. -/
def AuthMiddleware.dispatchFallback (req : InboundRequest) (env : AuthEnv)
    (callNextResponse : Response) (cache : List String) : Response × List String :=
  if AuthMiddleware.pathExempt req.path then
    (callNextResponse, cache)
  else
    match req.xRequestId with
    | none => (jsonError 400 "X-Request-ID header is required", cache)
    | some request_id =>
      if request_id == "" then
        (jsonError 400 "X-Request-ID header is required", cache)
      else
        let key := "rid:" ++ request_id
        let setnxOut := AsyncRedisClient.setnxFallback cache key
        let expireOut := AsyncRedisClient.expireFallback setnxOut.2 key 60
        (AuthMiddleware.dispatch req env (Except.ok setnxOut.1) (Except.ok expireOut.1)
          callNextResponse,
         if setnxOut.1 then expireOut.2 else setnxOut.2)

/-- `src/main.py` lines 45-47: `add_middleware(SecurityMiddleware)` then
`add_middleware(AuthMiddleware)`. Starlette's `add_middleware` prepends, and
the first user middleware in the list is the outermost, so the later-added
`AuthMiddleware` wraps `SecurityMiddleware`: the `call_next` of
`AuthMiddleware` is `SecurityMiddleware` applied to the router's response. -/
def appStack (req : InboundRequest) (env : AuthEnv)
    (setnxResult expireResult : Except Unit Bool)
    (processTime : String) (routerResponse : Response) : Response :=
  AuthMiddleware.dispatch req env setnxResult expireResult
    (SecurityMiddleware.dispatch processTime routerResponse)

/-- C1: for every inbound request whose path begins with `"/"` (as every HTTP
request path does), the path-exemption check of `AuthMiddleware.dispatch`
succeeds — the excluded-path list contains `"/"` and matching is by string
prefix — so dispatch forwards the request to the inner handler unchanged and
never performs the replay, bearer-token, or HMAC checks (the result is the
`call_next` response for every cache outcome, clock, key, token view and
header combination). -/
theorem auth_dispatch_exempts_every_slash_path
    (req : InboundRequest) (env : AuthEnv) (setnxResult expireResult : Except Unit Bool)
    (callNextResponse : Response)
    (h : strStartswith req.path "/" = true) :
    "/" ∈ AuthMiddleware.excluded_paths ∧
    AuthMiddleware.dispatch req env setnxResult expireResult callNextResponse
      = callNextResponse := by
  refine ⟨by simp [AuthMiddleware.excluded_paths], ?_⟩
  have hex : AuthMiddleware.pathExempt req.path = true := by
    simp [AuthMiddleware.pathExempt, AuthMiddleware.excluded_paths, h]
  simp [AuthMiddleware.dispatch, hex]

/-- Witness for C1 at the concrete path `"/api/gpt4"` with no headers at all. -/
theorem auth_dispatch_exempts_every_slash_path_witness :
    strStartswith "/api/gpt4" "/" = true ∧
    ("/" ∈ AuthMiddleware.excluded_paths ∧
      AuthMiddleware.dispatch
        { method := "POST", path := "/api/gpt4", xRequestId := none, authorization := none,
          xSignature := none, xTimestamp := none, body := "" }
        { now := 0, secretKey := "k", tokenView := fun s => Jwt.malformed s,
          clientSecretStore := fun _ => none }
        (Except.ok true) (Except.ok true)
        { status := 200, headers := [], body := Body.raw "ok" }
      = { status := 200, headers := [], body := Body.raw "ok" }) :=
  ⟨by decide, auth_dispatch_exempts_every_slash_path _ _ _ _ _ (by decide)⟩

/-- C2 counterexample: the path `"/api/chat"` is not on the configured
allow-list of unauthenticated paths, yet a request to it with no
`X-Request-ID` header is not denied with 400 — it is forwarded to the inner
handler (because `"/"` is on the list and matching is by prefix). -/
theorem missing_request_id_not_denied_on_unlisted_path :
    "/api/chat" ∉ AuthMiddleware.excluded_paths ∧
    AuthMiddleware.dispatch
      { method := "POST", path := "/api/chat", xRequestId := none, authorization := none,
        xSignature := none, xTimestamp := none, body := "" }
      { now := 0, secretKey := "k", tokenView := fun s => Jwt.malformed s,
        clientSecretStore := fun _ => none }
      (Except.ok true) (Except.ok true)
      { status := 200, headers := [], body := Body.raw "ok" }
      = { status := 200, headers := [], body := Body.raw "ok" } ∧
    (200 : Nat) ≠ 400 :=
  ⟨by decide, by rfl, by decide⟩

/-- C2 amended: for every inbound request whose path fails the prefix
exemption check (it does not start with any entry of the allow-list — in
particular it cannot begin with `"/"`), if the `X-Request-ID` header is absent
the gate denies with status 400 and the error body, before any token or
signature checking (the result is this fixed denial for every cache outcome,
clock, key and token view). -/
theorem missing_request_id_denied_on_nonexempt_path
    (req : InboundRequest) (env : AuthEnv) (setnxResult expireResult : Except Unit Bool)
    (callNextResponse : Response)
    (hpath : AuthMiddleware.pathExempt req.path = false)
    (hrid : req.xRequestId = none) :
    AuthMiddleware.dispatch req env setnxResult expireResult callNextResponse
      = jsonError 400 "X-Request-ID header is required" := by
  simp [AuthMiddleware.dispatch, hpath, hrid]

/-- Witness for the amended C2 at the concrete path `"api/chat"` (no leading
slash, so the prefix exemption genuinely fails). -/
theorem missing_request_id_denied_on_nonexempt_path_witness :
    AuthMiddleware.pathExempt "api/chat" = false ∧
    AuthMiddleware.dispatch
      { method := "POST", path := "api/chat", xRequestId := none, authorization := none,
        xSignature := none, xTimestamp := none, body := "" }
      { now := 0, secretKey := "k", tokenView := fun s => Jwt.malformed s,
        clientSecretStore := fun _ => none }
      (Except.ok true) (Except.ok true)
      { status := 200, headers := [], body := Body.raw "ok" }
      = jsonError 400 "X-Request-ID header is required" :=
  ⟨by decide,
   missing_request_id_denied_on_nonexempt_path _ _ _ _ _ (by decide) (by rfl)⟩

/-- C5: the HMAC admission outcome never depends on the client store — the
code verifies against the hard-coded `"demo-secret"` instead of the client's
stored shared secret (first conjunct: the decision is identical under any two
stores, for every request). Concretely (second conjunct): a request correctly
signed with the client's stored secret `"client-secret-A"` is rejected with
401 "Invalid HMAC signature" even though the bearer token is valid and the
store holds that secret for the client. -/
theorem hmac_outcome_ignores_client_store :
    (∀ (req : InboundRequest) (env : AuthEnv) (store1 store2 : String → Option String)
        (setnxResult expireResult : Except Unit Bool) (callNextResponse : Response),
      AuthMiddleware.dispatch req { env with clientSecretStore := store1 }
          setnxResult expireResult callNextResponse
        = AuthMiddleware.dispatch req { env with clientSecretStore := store2 }
            setnxResult expireResult callNextResponse) ∧
    AuthMiddleware.dispatch
      { method := "POST", path := "api/chat", xRequestId := some "r1",
        authorization := some "Bearer tok0",
        xSignature := some ("sha256=" ++
          sign "client-secret-A" "POST" "api/chat" "1000" (sha256Hexdigest "body")),
        xTimestamp := some "1000", body := "body" }
      { now := 1000, secretKey := "k",
        tokenView := fun s =>
          if s = "tok0" then
            Jwt.signed { sub := some "7", scope := ["basic"], exp := 2000, iat := 0, jti := "j" } "k"
          else Jwt.malformed s,
        clientSecretStore := fun cid => if cid = "7" then some "client-secret-A" else none }
      (Except.ok true) (Except.ok true)
      { status := 200, headers := [], body := Body.raw "ok" }
      = jsonError 401 "Invalid HMAC signature" := by
  constructor
  · intro req env store1 store2 setnxResult expireResult callNextResponse
    simp [AuthMiddleware.dispatch, AuthMiddleware.authPhase, AuthMiddleware.hmacPhase,
      AuthMiddleware.hmacVerifyStep]
  · rfl

/-- C3: for every non-exempt request carrying a request identifier (a
non-empty header value — an empty one is treated as missing by the gate's
truthiness test), the identifier is accepted at most once while its replay
record is live: the first reserve of a fresh identifier returns true and the
request proceeds to the bearer check, the record `rid:<id>` becomes live, and
any later request presenting the same identifier while the record is live is
denied with the replay error and status 400. (Modelled on the in-process
fallback branch of the replay cache; the connected branch delegates the same
`SETNX` contract to the external redis service.) -/
theorem replay_identifier_accepted_at_most_once
    (req1 req2 : InboundRequest) (env1 env2 : AuthEnv) (inner1 inner2 : Response)
    (cache : List String) (rid : String)
    (h1 : AuthMiddleware.pathExempt req1.path = false)
    (h2 : AuthMiddleware.pathExempt req2.path = false)
    (hr1 : req1.xRequestId = some rid)
    (hr2 : req2.xRequestId = some rid)
    (hrne : rid ≠ "")
    (hfresh : ("rid:" ++ rid) ∉ cache) :
    (AsyncRedisClient.setnxFallback cache ("rid:" ++ rid)).1 = true ∧
    (AuthMiddleware.dispatchFallback req1 env1 inner1 cache).1
      = AuthMiddleware.authPhase req1 env1 inner1 ∧
    ("rid:" ++ rid) ∈ (AuthMiddleware.dispatchFallback req1 env1 inner1 cache).2 ∧
    (∀ cacheLater : List String, ("rid:" ++ rid) ∈ cacheLater →
      (AuthMiddleware.dispatchFallback req2 env2 inner2 cacheLater).1
        = jsonError 400 "Request ID already used (replay detected)") := by
  refine ⟨?_, ?_, ?_, ?_⟩
  · simp [AsyncRedisClient.setnxFallback, hfresh]
  · simp [AuthMiddleware.dispatchFallback, h1, hr1, hrne, AsyncRedisClient.setnxFallback,
      hfresh, AsyncRedisClient.expireFallback, AuthMiddleware.dispatch]
  · simp [AuthMiddleware.dispatchFallback, h1, hr1, hrne, AsyncRedisClient.setnxFallback,
      hfresh, AsyncRedisClient.expireFallback]
  · intro cacheLater hm
    simp [AuthMiddleware.dispatchFallback, h2, hr2, hrne, AsyncRedisClient.setnxFallback,
      hm, AsyncRedisClient.expireFallback, AuthMiddleware.dispatch]

/-- Witness for C3: identifier `"r1"` on the non-exempt path `"api/chat"`,
starting from an empty fallback map. -/
theorem replay_identifier_accepted_at_most_once_witness :
    ((AsyncRedisClient.setnxFallback [] "rid:r1").1 = true ∧
     (AuthMiddleware.dispatchFallback
        { method := "POST", path := "api/chat", xRequestId := some "r1",
          authorization := none, xSignature := none, xTimestamp := none, body := "" }
        { now := 0, secretKey := "k", tokenView := fun s => Jwt.malformed s,
          clientSecretStore := fun _ => none }
        { status := 200, headers := [], body := Body.raw "ok" } []).1
       = AuthMiddleware.authPhase
          { method := "POST", path := "api/chat", xRequestId := some "r1",
            authorization := none, xSignature := none, xTimestamp := none, body := "" }
          { now := 0, secretKey := "k", tokenView := fun s => Jwt.malformed s,
            clientSecretStore := fun _ => none }
          { status := 200, headers := [], body := Body.raw "ok" } ∧
     "rid:r1" ∈ (AuthMiddleware.dispatchFallback
        { method := "POST", path := "api/chat", xRequestId := some "r1",
          authorization := none, xSignature := none, xTimestamp := none, body := "" }
        { now := 0, secretKey := "k", tokenView := fun s => Jwt.malformed s,
          clientSecretStore := fun _ => none }
        { status := 200, headers := [], body := Body.raw "ok" } []).2 ∧
     (∀ cacheLater : List String, "rid:r1" ∈ cacheLater →
       (AuthMiddleware.dispatchFallback
          { method := "GET", path := "api/other", xRequestId := some "r1",
            authorization := none, xSignature := none, xTimestamp := none, body := "" }
          { now := 999999, secretKey := "k", tokenView := fun s => Jwt.malformed s,
            clientSecretStore := fun _ => none }
          { status := 200, headers := [], body := Body.raw "ok" } cacheLater).1
         = jsonError 400 "Request ID already used (replay detected)")) :=
  replay_identifier_accepted_at_most_once _ _ _ _ _ _ _ _
    (by decide) (by decide) (by rfl) (by rfl) (by decide) (by decide)

/-- C9: when the replay-cache backing store raises during `setnx` (or during
the subsequent `expire` scheduling) for a request that reaches the replay
check (non-exempt path, non-empty request identifier),
`AuthMiddleware.dispatch` logs and continues to the bearer check: the outcome
equals the bearer-check continuation, so a cache-layer failure never by
itself denies the request or crashes the gate. -/
theorem cache_error_fail_open
    (req : InboundRequest) (env : AuthEnv) (callNextResponse : Response)
    (rid : String) (setnxResult expireResult : Except Unit Bool)
    (hpath : AuthMiddleware.pathExempt req.path = false)
    (hrid : req.xRequestId = some rid)
    (hrne : rid ≠ "")
    (herr : setnxResult = Except.error () ∨
            (setnxResult = Except.ok true ∧ expireResult = Except.error ())) :
    AuthMiddleware.dispatch req env setnxResult expireResult callNextResponse
      = AuthMiddleware.authPhase req env callNextResponse := by
  rcases herr with h | ⟨hs, he⟩
  · simp [AuthMiddleware.dispatch, hpath, hrid, hrne, h]
  · simp [AuthMiddleware.dispatch, hpath, hrid, hrne, hs, he]

/-- Witness for C9: a raising `setnx` on a first-seen identifier still lets
the request proceed to the bearer check. -/
theorem cache_error_fail_open_witness :
    AuthMiddleware.dispatch
      { method := "POST", path := "api/chat", xRequestId := some "r1",
        authorization := none, xSignature := none, xTimestamp := none, body := "" }
      { now := 0, secretKey := "k", tokenView := fun s => Jwt.malformed s,
        clientSecretStore := fun _ => none }
      (Except.error ()) (Except.ok true)
      { status := 200, headers := [], body := Body.raw "ok" }
      = AuthMiddleware.authPhase
          { method := "POST", path := "api/chat", xRequestId := some "r1",
            authorization := none, xSignature := none, xTimestamp := none, body := "" }
          { now := 0, secretKey := "k", tokenView := fun s => Jwt.malformed s,
            clientSecretStore := fun _ => none }
          { status := 200, headers := [], body := Body.raw "ok" } :=
  cache_error_fail_open _ _ _ "r1" _ _ (by decide) (by rfl) (by decide) (Or.inl rfl)

/-- C10: in fallback mode `expire` is a no-op and no fallback entry is ever
removed: `expireFallback` returns the map unchanged, every dispatch only
grows the map, and once `rid:<id>` has been reserved any request presenting
that identifier is denied for the rest of the process — after any sequence of
intervening requests and at any later clock value (the fallback path never
consults the clock), in particular long after the 60-second TTL window. The
presenting request carries a non-empty identifier (an empty one is rejected
earlier, as missing, by the gate's truthiness test). -/
theorem fallback_reservation_permanent
    (req : InboundRequest) (rid : String) (cache : List String)
    (hpath : AuthMiddleware.pathExempt req.path = false)
    (hrid : req.xRequestId = some rid)
    (hrne : rid ≠ "")
    (hlive : ("rid:" ++ rid) ∈ cache) :
    (∀ (c : List String) (key : String) (seconds : Int),
        AsyncRedisClient.expireFallback c key seconds = (true, c)) ∧
    (∀ (r : InboundRequest) (e : AuthEnv) (i : Response) (c : List String) (k : String),
        k ∈ c → k ∈ (AuthMiddleware.dispatchFallback r e i c).2) ∧
    (∀ (env : AuthEnv) (inner : Response)
        (others : List (InboundRequest × AuthEnv × Response)),
        (AuthMiddleware.dispatchFallback req env inner
            (others.foldl
              (fun c x => (AuthMiddleware.dispatchFallback x.1 x.2.1 x.2.2 c).2) cache)).1
          = jsonError 400 "Request ID already used (replay detected)") := by
  have mono : ∀ (r : InboundRequest) (e : AuthEnv) (i : Response) (c : List String)
      (k : String), k ∈ c → k ∈ (AuthMiddleware.dispatchFallback r e i c).2 := by
    intro r e i c k hk
    cases hx : AuthMiddleware.pathExempt r.path with
    | true => simpa [AuthMiddleware.dispatchFallback, hx] using hk
    | false =>
      cases hr : r.xRequestId with
      | none => simpa [AuthMiddleware.dispatchFallback, hx, hr] using hk
      | some rid2 =>
        by_cases hemp : rid2 = ""
        · simpa [AuthMiddleware.dispatchFallback, hx, hr, hemp] using hk
        · by_cases hm : ("rid:" ++ rid2) ∈ c
          · simpa [AuthMiddleware.dispatchFallback, hx, hr, hemp,
              AsyncRedisClient.setnxFallback, AsyncRedisClient.expireFallback, hm] using hk
          · simp [AuthMiddleware.dispatchFallback, hx, hr, hemp,
              AsyncRedisClient.setnxFallback, AsyncRedisClient.expireFallback, hm]
            exact Or.inr hk
  have denial : ∀ (env : AuthEnv) (inner : Response) (cacheLive : List String),
      ("rid:" ++ rid) ∈ cacheLive →
      (AuthMiddleware.dispatchFallback req env inner cacheLive).1
        = jsonError 400 "Request ID already used (replay detected)" := by
    intro env inner cacheLive hm
    simp [AuthMiddleware.dispatchFallback, hpath, hrid, hrne, AsyncRedisClient.setnxFallback,
      hm, AsyncRedisClient.expireFallback, AuthMiddleware.dispatch]
  have keyInFold : ∀ (others : List (InboundRequest × AuthEnv × Response)) (c : List String),
      ("rid:" ++ rid) ∈ c →
      ("rid:" ++ rid) ∈ others.foldl
        (fun c x => (AuthMiddleware.dispatchFallback x.1 x.2.1 x.2.2 c).2) c := by
    intro others
    induction others with
    | nil => intro c hc; exact hc
    | cons x xs ih => intro c hc; exact ih _ (mono _ _ _ _ _ hc)
  exact ⟨fun _ _ _ => rfl, mono,
    fun env inner others => denial env inner _ (keyInFold others cache hlive)⟩

/-- Witness for C10: identifier `"r1"` already reserved in the fallback map;
a same-identifier request at a much later clock, after an intervening
request, is still denied. -/
theorem fallback_reservation_permanent_witness :
    ((∀ (c : List String) (key : String) (seconds : Int),
        AsyncRedisClient.expireFallback c key seconds = (true, c)) ∧
     (∀ (r : InboundRequest) (e : AuthEnv) (i : Response) (c : List String) (k : String),
        k ∈ c → k ∈ (AuthMiddleware.dispatchFallback r e i c).2) ∧
     (∀ (env : AuthEnv) (inner : Response)
        (others : List (InboundRequest × AuthEnv × Response)),
        (AuthMiddleware.dispatchFallback
            { method := "GET", path := "api/chat", xRequestId := some "r1",
              authorization := none, xSignature := none, xTimestamp := none, body := "" }
            env inner
            (others.foldl
              (fun c x => (AuthMiddleware.dispatchFallback x.1 x.2.1 x.2.2 c).2) ["rid:r1"])).1
          = jsonError 400 "Request ID already used (replay detected)")) :=
  fallback_reservation_permanent _ "r1" _ (by decide) (by rfl) (by decide) (by decide)

/-- C4 counterexample: a request denied by the gate (non-exempt path, missing
`X-Request-ID`) produces a 400 response that carries neither the security
headers nor the `X-Process-Time` marker — `AuthMiddleware` (added later, hence
outermost) short-circuits without calling `call_next`, so the inner
`SecurityMiddleware` never decorates the denial. -/
theorem denied_response_lacks_security_headers :
    (appStack
      { method := "POST", path := "api/chat", xRequestId := none, authorization := none,
        xSignature := none, xTimestamp := none, body := "" }
      { now := 0, secretKey := "k", tokenView := fun s => Jwt.malformed s,
        clientSecretStore := fun _ => none }
      (Except.ok true) (Except.ok true) "0.001"
      { status := 200, headers := [], body := Body.raw "ok" }).status = 400 ∧
    "X-Content-Type-Options" ∉
      (appStack
        { method := "POST", path := "api/chat", xRequestId := none, authorization := none,
          xSignature := none, xTimestamp := none, body := "" }
        { now := 0, secretKey := "k", tokenView := fun s => Jwt.malformed s,
          clientSecretStore := fun _ => none }
        (Except.ok true) (Except.ok true) "0.001"
        { status := 200, headers := [], body := Body.raw "ok" }).headers.map Prod.fst ∧
    "X-Process-Time" ∉
      (appStack
        { method := "POST", path := "api/chat", xRequestId := none, authorization := none,
          xSignature := none, xTimestamp := none, body := "" }
        { now := 0, secretKey := "k", tokenView := fun s => Jwt.malformed s,
          clientSecretStore := fun _ => none }
        (Except.ok true) (Except.ok true) "0.001"
        { status := 200, headers := [], body := Body.raw "ok" }).headers.map Prod.fst :=
  ⟨by rfl, by decide, by decide⟩

/-- C4 amended: every response the gate forwards (exempt or fully admitted
requests) carries the eight headers — `SecurityMiddleware` runs inside
`AuthMiddleware` in the stack built by `main.py`, so the decoration applies
exactly to the responses that pass through `call_next`; responses denied by
the gate never reach it (see the counterexample). -/
theorem forwarded_response_carries_security_headers
    (req : InboundRequest) (env : AuthEnv) (setnxResult expireResult : Except Unit Bool)
    (processTime : String) (routerResponse : Response)
    (hfwd : AuthMiddleware.dispatch req env setnxResult expireResult
        (SecurityMiddleware.dispatch processTime routerResponse)
      = SecurityMiddleware.dispatch processTime routerResponse) :
    ∀ k ∈ ["X-Content-Type-Options", "X-Frame-Options", "X-XSS-Protection",
           "Strict-Transport-Security", "Cache-Control", "Pragma", "Expires",
           "X-Process-Time"],
      k ∈ (appStack req env setnxResult expireResult processTime
            routerResponse).headers.map Prod.fst := by
  have self_mem : ∀ (hs : List (String × String)) (k v : String),
      k ∈ (setHeader hs k v).map Prod.fst := by
    intro hs k v
    simp [setHeader]
  have keep : ∀ (hs : List (String × String)) (k v k0 : String),
      k0 ∈ hs.map Prod.fst → k0 ≠ k → k0 ∈ (setHeader hs k v).map Prod.fst := by
    intro hs k v k0 h0 hne
    rcases List.mem_map.1 h0 with ⟨p, hp, hfst⟩
    refine List.mem_map.2 ⟨p, List.mem_append.2 (Or.inl (List.mem_filter.2 ⟨hp, ?_⟩)), hfst⟩
    simp only [bne_iff_ne, ne_eq, hfst]
    exact hne
  intro k hk
  have hrw : appStack req env setnxResult expireResult processTime routerResponse
      = SecurityMiddleware.dispatch processTime routerResponse := hfwd
  rw [hrw]
  simp only [SecurityMiddleware.dispatch]
  fin_cases hk
  · exact keep _ _ _ _ (keep _ _ _ _ (keep _ _ _ _ (keep _ _ _ _ (keep _ _ _ _ (keep _ _ _ _
      (keep _ _ _ _ (self_mem _ _ _) (by decide)) (by decide)) (by decide)) (by decide))
      (by decide)) (by decide)) (by decide)
  · exact keep _ _ _ _ (keep _ _ _ _ (keep _ _ _ _ (keep _ _ _ _ (keep _ _ _ _ (keep _ _ _ _
      (self_mem _ _ _) (by decide)) (by decide)) (by decide)) (by decide)) (by decide))
      (by decide)
  · exact keep _ _ _ _ (keep _ _ _ _ (keep _ _ _ _ (keep _ _ _ _ (keep _ _ _ _
      (self_mem _ _ _) (by decide)) (by decide)) (by decide)) (by decide)) (by decide)
  · exact keep _ _ _ _ (keep _ _ _ _ (keep _ _ _ _ (keep _ _ _ _
      (self_mem _ _ _) (by decide)) (by decide)) (by decide)) (by decide)
  · exact keep _ _ _ _ (keep _ _ _ _ (keep _ _ _ _
      (self_mem _ _ _) (by decide)) (by decide)) (by decide)
  · exact keep _ _ _ _ (keep _ _ _ _ (self_mem _ _ _) (by decide)) (by decide)
  · exact keep _ _ _ _ (self_mem _ _ _) (by decide)
  · exact self_mem _ _ _

/-- Witness for the amended C4: the exempt path `"/"` with no headers at all
is forwarded, and the stacked response carries all eight headers. -/
theorem forwarded_response_carries_security_headers_witness :
    "X-Content-Type-Options" ∈ (appStack
      { method := "GET", path := "/", xRequestId := none, authorization := none,
        xSignature := none, xTimestamp := none, body := "" }
      { now := 0, secretKey := "k", tokenView := fun s => Jwt.malformed s,
        clientSecretStore := fun _ => none }
      (Except.ok true) (Except.ok true) "0.001"
      { status := 200, headers := [], body := Body.raw "ok" }).headers.map Prod.fst ∧
    "X-Frame-Options" ∈ (appStack
      { method := "GET", path := "/", xRequestId := none, authorization := none,
        xSignature := none, xTimestamp := none, body := "" }
      { now := 0, secretKey := "k", tokenView := fun s => Jwt.malformed s,
        clientSecretStore := fun _ => none }
      (Except.ok true) (Except.ok true) "0.001"
      { status := 200, headers := [], body := Body.raw "ok" }).headers.map Prod.fst ∧
    "X-XSS-Protection" ∈ (appStack
      { method := "GET", path := "/", xRequestId := none, authorization := none,
        xSignature := none, xTimestamp := none, body := "" }
      { now := 0, secretKey := "k", tokenView := fun s => Jwt.malformed s,
        clientSecretStore := fun _ => none }
      (Except.ok true) (Except.ok true) "0.001"
      { status := 200, headers := [], body := Body.raw "ok" }).headers.map Prod.fst ∧
    "Strict-Transport-Security" ∈ (appStack
      { method := "GET", path := "/", xRequestId := none, authorization := none,
        xSignature := none, xTimestamp := none, body := "" }
      { now := 0, secretKey := "k", tokenView := fun s => Jwt.malformed s,
        clientSecretStore := fun _ => none }
      (Except.ok true) (Except.ok true) "0.001"
      { status := 200, headers := [], body := Body.raw "ok" }).headers.map Prod.fst ∧
    "Cache-Control" ∈ (appStack
      { method := "GET", path := "/", xRequestId := none, authorization := none,
        xSignature := none, xTimestamp := none, body := "" }
      { now := 0, secretKey := "k", tokenView := fun s => Jwt.malformed s,
        clientSecretStore := fun _ => none }
      (Except.ok true) (Except.ok true) "0.001"
      { status := 200, headers := [], body := Body.raw "ok" }).headers.map Prod.fst ∧
    "Pragma" ∈ (appStack
      { method := "GET", path := "/", xRequestId := none, authorization := none,
        xSignature := none, xTimestamp := none, body := "" }
      { now := 0, secretKey := "k", tokenView := fun s => Jwt.malformed s,
        clientSecretStore := fun _ => none }
      (Except.ok true) (Except.ok true) "0.001"
      { status := 200, headers := [], body := Body.raw "ok" }).headers.map Prod.fst ∧
    "Expires" ∈ (appStack
      { method := "GET", path := "/", xRequestId := none, authorization := none,
        xSignature := none, xTimestamp := none, body := "" }
      { now := 0, secretKey := "k", tokenView := fun s => Jwt.malformed s,
        clientSecretStore := fun _ => none }
      (Except.ok true) (Except.ok true) "0.001"
      { status := 200, headers := [], body := Body.raw "ok" }).headers.map Prod.fst ∧
    "X-Process-Time" ∈ (appStack
      { method := "GET", path := "/", xRequestId := none, authorization := none,
        xSignature := none, xTimestamp := none, body := "" }
      { now := 0, secretKey := "k", tokenView := fun s => Jwt.malformed s,
        clientSecretStore := fun _ => none }
      (Except.ok true) (Except.ok true) "0.001"
      { status := 200, headers := [], body := Body.raw "ok" }).headers.map Prod.fst :=
  ⟨forwarded_response_carries_security_headers _ _ _ _ _ _ (by rfl)
      "X-Content-Type-Options" (by decide),
   forwarded_response_carries_security_headers _ _ _ _ _ _ (by rfl)
      "X-Frame-Options" (by decide),
   forwarded_response_carries_security_headers _ _ _ _ _ _ (by rfl)
      "X-XSS-Protection" (by decide),
   forwarded_response_carries_security_headers _ _ _ _ _ _ (by rfl)
      "Strict-Transport-Security" (by decide),
   forwarded_response_carries_security_headers _ _ _ _ _ _ (by rfl)
      "Cache-Control" (by decide),
   forwarded_response_carries_security_headers _ _ _ _ _ _ (by rfl)
      "Pragma" (by decide),
   forwarded_response_carries_security_headers _ _ _ _ _ _ (by rfl)
      "Expires" (by decide),
   forwarded_response_carries_security_headers _ _ _ _ _ _ (by rfl)
      "X-Process-Time" (by decide)⟩

/-- C6: a token issued by `create_access_token` with ttl `T` verifies under
the issuing key at every time strictly before `iat + T`, returning the
encoded subject and scopes; at any time after `iat + T` verification fails
with the 401 "Token has expired" error; a token whose signature does not
verify (any non-issuing key) or whose encoding is malformed fails with the
401 "Invalid token" error. -/
theorem token_roundtrip_expiry
    (sub : String) (scopes : List String) (secretKey jti : String) (T now t : Int) :
    (t < now + T →
      verify_token (create_access_token (some sub) scopes secretKey (some T) now jti)
          secretKey t
        = Except.ok { sub := some sub, scope := scopes, exp := now + T, iat := now, jti := jti }) ∧
    (now + T < t →
      verify_token (create_access_token (some sub) scopes secretKey (some T) now jti)
          secretKey t
        = Except.error ⟨401, "Token has expired"⟩) ∧
    (∀ otherKey : String, otherKey ≠ secretKey →
      verify_token (create_access_token (some sub) scopes secretKey (some T) now jti)
          otherKey t
        = Except.error ⟨401, "Invalid token"⟩) ∧
    (∀ raw : String,
      verify_token (Jwt.malformed raw) secretKey t = Except.error ⟨401, "Invalid token"⟩) := by
  refine ⟨?_, ?_, ?_, fun raw => rfl⟩
  · intro h
    have hn : ¬ (now + T ≤ t) := by omega
    simp [create_access_token, verify_token, jwtDecode, hn]
  · intro h
    have hy : now + T ≤ t := le_of_lt h
    simp [create_access_token, verify_token, jwtDecode, hy]
  · intro otherKey hk
    simp [create_access_token, verify_token, jwtDecode, Ne.symm hk]

/-- Witness for C6: a token with ttl 3600 issued at 1000 verifies at 4599,
expires at 4601, and fails as invalid under a wrong key or when malformed. -/
theorem token_roundtrip_expiry_witness :
    verify_token (create_access_token (some "7") ["basic"] "k" (some 3600) 1000 "j") "k" 4599
      = Except.ok { sub := some "7", scope := ["basic"], exp := 4600, iat := 1000, jti := "j" } ∧
    verify_token (create_access_token (some "7") ["basic"] "k" (some 3600) 1000 "j") "k" 4601
      = Except.error ⟨401, "Token has expired"⟩ ∧
    verify_token (create_access_token (some "7") ["basic"] "k" (some 3600) 1000 "j") "wrong" 4599
      = Except.error ⟨401, "Invalid token"⟩ ∧
    verify_token (Jwt.malformed "garbage") "k" 0 = Except.error ⟨401, "Invalid token"⟩ :=
  ⟨(token_roundtrip_expiry "7" ["basic"] "k" "j" 3600 1000 4599).1 (by decide),
   (token_roundtrip_expiry "7" ["basic"] "k" "j" 3600 1000 4601).2.1 (by decide),
   (token_roundtrip_expiry "7" ["basic"] "k" "j" 3600 1000 4599).2.2.1 "wrong" (by decide),
   (token_roundtrip_expiry "7" ["basic"] "k" "j" 3600 1000 0).2.2.2 "garbage"⟩

/-- C7: for every HMAC-checked request (non-exempt, fresh non-empty
identifier, valid bearer token, non-empty signature and timestamp headers,
timestamp parsing to `t`), the gate rejects with the clock-skew error and
status 400 exactly when `|now - t| > 30` seconds; at skew at most 30 (in
particular exactly 30) the check proceeds to signature verification. -/
theorem clock_skew_boundary
    (req : InboundRequest) (env : AuthEnv) (callNextResponse : Response)
    (rid authHeader sig ts : String) (t : Int) (payload : JwtClaims)
    (hpath : AuthMiddleware.pathExempt req.path = false)
    (hrid : req.xRequestId = some rid)
    (hrne : rid ≠ "")
    (hauth : req.authorization = some authHeader)
    (hbearer : strStartswith authHeader "Bearer " = true)
    (htok : verify_token
        (env.tokenView (String.mk ((splitChar ' ' authHeader.data).getD 1 [])))
        env.secretKey env.now = Except.ok payload)
    (hsig : req.xSignature = some sig) (hsigne : sig ≠ "")
    (hts : req.xTimestamp = some ts) (htsne : ts ≠ "")
    (hparse : pyInt? ts = some t) :
    ((env.now - t).natAbs > 30 →
      AuthMiddleware.dispatch req env (Except.ok true) (Except.ok true) callNextResponse
        = jsonError 400 "Request timestamp out of allowed window") ∧
    ((env.now - t).natAbs ≤ 30 →
      AuthMiddleware.dispatch req env (Except.ok true) (Except.ok true) callNextResponse
        = AuthMiddleware.hmacVerifyStep req ts sig callNextResponse) := by
  have htok2 : verify_token
      (env.tokenView (String.mk ((splitChar ' ' authHeader.data)[1]?.getD [])))
      env.secretKey env.now = Except.ok payload := by simpa using htok
  have base : AuthMiddleware.dispatch req env (Except.ok true) (Except.ok true) callNextResponse
      = AuthMiddleware.hmacPhase req env callNextResponse := by
    simp [AuthMiddleware.dispatch, hpath, hrid, hrne, AuthMiddleware.authPhase, hauth,
      hbearer, htok2]
  constructor
  · intro hskew
    rw [base]
    simp [AuthMiddleware.hmacPhase, hsig, hts, hsigne, htsne, hparse, hskew]
  · intro hskew
    rw [base]
    have hn : ¬ ((env.now - t).natAbs > 30) := by omega
    simp [AuthMiddleware.hmacPhase, hsig, hts, hsigne, htsne, hparse, hn]

/-- Witness for C7: the same signed request at clock skew 31 is rejected with
the 400 clock-skew error and at clock skew exactly 30 proceeds to signature
verification (here succeeding, so the request is forwarded). -/
theorem clock_skew_boundary_witness :
    (AuthMiddleware.dispatch
      { method := "POST", path := "api/chat", xRequestId := some "r1",
        authorization := some "Bearer tok0",
        xSignature := some ("sha256=" ++
          sign "demo-secret" "POST" "api/chat" "1000" (sha256Hexdigest "body")),
        xTimestamp := some "1000", body := "body" }
      { now := 1031, secretKey := "k",
        tokenView := fun s =>
          if s = "tok0" then
            Jwt.signed { sub := some "7", scope := ["basic"], exp := 2000, iat := 0, jti := "j" } "k"
          else Jwt.malformed s,
        clientSecretStore := fun _ => none }
      (Except.ok true) (Except.ok true)
      { status := 200, headers := [], body := Body.raw "ok" }
      = jsonError 400 "Request timestamp out of allowed window") ∧
    (AuthMiddleware.dispatch
      { method := "POST", path := "api/chat", xRequestId := some "r1",
        authorization := some "Bearer tok0",
        xSignature := some ("sha256=" ++
          sign "demo-secret" "POST" "api/chat" "1000" (sha256Hexdigest "body")),
        xTimestamp := some "1000", body := "body" }
      { now := 1030, secretKey := "k",
        tokenView := fun s =>
          if s = "tok0" then
            Jwt.signed { sub := some "7", scope := ["basic"], exp := 2000, iat := 0, jti := "j" } "k"
          else Jwt.malformed s,
        clientSecretStore := fun _ => none }
      (Except.ok true) (Except.ok true)
      { status := 200, headers := [], body := Body.raw "ok" }
      = AuthMiddleware.hmacVerifyStep
          { method := "POST", path := "api/chat", xRequestId := some "r1",
            authorization := some "Bearer tok0",
            xSignature := some ("sha256=" ++
              sign "demo-secret" "POST" "api/chat" "1000" (sha256Hexdigest "body")),
            xTimestamp := some "1000", body := "body" }
          "1000"
          ("sha256=" ++ sign "demo-secret" "POST" "api/chat" "1000" (sha256Hexdigest "body"))
          { status := 200, headers := [], body := Body.raw "ok" }) :=
  ⟨(clock_skew_boundary _ _ _ "r1" _ _ _ 1000 _ (by decide) (by rfl) (by decide) (by rfl)
      (by decide) (by rfl) (by rfl) (by decide) (by rfl) (by decide) (by rfl)).1 (by decide),
   (clock_skew_boundary _ _ _ "r1" _ _ _ 1000 _ (by decide) (by rfl) (by decide) (by rfl)
      (by decide) (by rfl) (by rfl) (by decide) (by rfl) (by decide) (by rfl)).2 (by decide)⟩

/-- Two strings with the same character data are equal. -/
lemma string_data_inj (a b : String) (h : a.data = b.data) : a = b := by
  cases a
  cases b
  cases h
  rfl

/-- The idealised MAC is injective in the message for a fixed key. -/
lemma mac_msg_inj (secret m1 m2 : String)
    (h : hmacSha256Hexdigest secret m1 = hmacSha256Hexdigest secret m2) : m1 = m2 := by
  have hd := congrArg String.data h
  simp only [hmacSha256Hexdigest, String.data_append, List.append_assoc] at hd
  exact string_data_inj _ _ (List.append_cancel_left (List.append_cancel_left hd))

/-- The idealised MAC is injective in the key for a fixed message. -/
lemma mac_key_inj (s1 s2 m : String)
    (h : hmacSha256Hexdigest s1 m = hmacSha256Hexdigest s2 m) : s1 = s2 := by
  have hd := congrArg String.data h
  simp only [hmacSha256Hexdigest, String.data_append, List.append_assoc] at hd
  exact string_data_inj _ _ (List.append_cancel_right hd)

/-- With the other three fields fixed, equal canonical strings force equal
methods. -/
lemma canonical_inj_method (m1 m2 p t h : String)
    (heq : m1 ++ "\n" ++ p ++ "\n" ++ t ++ "\n" ++ h
         = m2 ++ "\n" ++ p ++ "\n" ++ t ++ "\n" ++ h) : m1 = m2 := by
  have hd := congrArg String.data heq
  simp only [String.data_append, List.append_assoc] at hd
  exact string_data_inj _ _ (List.append_cancel_right hd)

/-- With the other three fields fixed, equal canonical strings force equal
paths. -/
lemma canonical_inj_path (m p1 p2 t h : String)
    (heq : m ++ "\n" ++ p1 ++ "\n" ++ t ++ "\n" ++ h
         = m ++ "\n" ++ p2 ++ "\n" ++ t ++ "\n" ++ h) : p1 = p2 := by
  have hd := congrArg String.data heq
  simp only [String.data_append, List.append_assoc] at hd
  have h1 := List.append_cancel_left (List.append_cancel_left hd)
  exact string_data_inj _ _ (List.append_cancel_right h1)

/-- With the other three fields fixed, equal canonical strings force equal
timestamps. -/
lemma canonical_inj_timestamp (m p t1 t2 h : String)
    (heq : m ++ "\n" ++ p ++ "\n" ++ t1 ++ "\n" ++ h
         = m ++ "\n" ++ p ++ "\n" ++ t2 ++ "\n" ++ h) : t1 = t2 := by
  have hd := congrArg String.data heq
  simp only [String.data_append, List.append_assoc] at hd
  have h1 := List.append_cancel_left (List.append_cancel_left
    (List.append_cancel_left (List.append_cancel_left hd)))
  exact string_data_inj _ _ (List.append_cancel_right h1)

/-- With the other three fields fixed, equal canonical strings force equal
body hashes. -/
lemma canonical_inj_bodyhash (m p t h1 h2 : String)
    (heq : m ++ "\n" ++ p ++ "\n" ++ t ++ "\n" ++ h1
         = m ++ "\n" ++ p ++ "\n" ++ t ++ "\n" ++ h2) : h1 = h2 := by
  have hd := congrArg String.data heq
  simp only [String.data_append, List.append_assoc] at hd
  exact string_data_inj _ _ (List.append_cancel_left (List.append_cancel_left
    (List.append_cancel_left (List.append_cancel_left
      (List.append_cancel_left (List.append_cancel_left hd))))))

/-- C8: verification round-trips on signing — `verify_hmac_signature` accepts
the signature produced by `sign` over the same `(secret, method, path,
timestamp, bodyHash)` tuple; and changing any single one of method, path,
timestamp, body hash, or secret (to any different value, in particular one
differing by one character) makes verification return false. Stated over the
idealised collision-free MAC. -/
theorem hmac_sign_verify_roundtrip
    (secret m p t h altSecret altM altP altT altH : String) :
    verify_hmac_signature secret m p t h (sign secret m p t h) = true ∧
    (altM ≠ m → verify_hmac_signature secret altM p t h (sign secret m p t h) = false) ∧
    (altP ≠ p → verify_hmac_signature secret m altP t h (sign secret m p t h) = false) ∧
    (altT ≠ t → verify_hmac_signature secret m p altT h (sign secret m p t h) = false) ∧
    (altH ≠ h → verify_hmac_signature secret m p t altH (sign secret m p t h) = false) ∧
    (altSecret ≠ secret →
      verify_hmac_signature altSecret m p t h (sign secret m p t h) = false) := by
  refine ⟨by simp [verify_hmac_signature, sign], ?_, ?_, ?_, ?_, ?_⟩
  · intro hne
    simp only [verify_hmac_signature, sign]
    rw [beq_eq_false_iff_ne]
    intro heq
    exact hne (canonical_inj_method _ _ _ _ _ (mac_msg_inj _ _ _ heq))
  · intro hne
    simp only [verify_hmac_signature, sign]
    rw [beq_eq_false_iff_ne]
    intro heq
    exact hne (canonical_inj_path _ _ _ _ _ (mac_msg_inj _ _ _ heq))
  · intro hne
    simp only [verify_hmac_signature, sign]
    rw [beq_eq_false_iff_ne]
    intro heq
    exact hne (canonical_inj_timestamp _ _ _ _ _ (mac_msg_inj _ _ _ heq))
  · intro hne
    simp only [verify_hmac_signature, sign]
    rw [beq_eq_false_iff_ne]
    intro heq
    exact hne (canonical_inj_bodyhash _ _ _ _ _ (mac_msg_inj _ _ _ heq))
  · intro hne
    simp only [verify_hmac_signature, sign]
    rw [beq_eq_false_iff_ne]
    intro heq
    exact hne (mac_key_inj _ _ _ heq)

/-- Witness for C8: round-trip succeeds on a concrete tuple, and a
one-character change to each of method, path, timestamp, body hash, and
secret makes verification fail. -/
theorem hmac_sign_verify_roundtrip_witness :
    verify_hmac_signature "s3cr3t" "GET" "/api/x" "1000" "bh" (sign "s3cr3t" "GET" "/api/x" "1000" "bh") = true ∧
    verify_hmac_signature "s3cr3t" "GEt" "/api/x" "1000" "bh" (sign "s3cr3t" "GET" "/api/x" "1000" "bh") = false ∧
    verify_hmac_signature "s3cr3t" "GET" "/api/y" "1000" "bh" (sign "s3cr3t" "GET" "/api/x" "1000" "bh") = false ∧
    verify_hmac_signature "s3cr3t" "GET" "/api/x" "1001" "bh" (sign "s3cr3t" "GET" "/api/x" "1000" "bh") = false ∧
    verify_hmac_signature "s3cr3t" "GET" "/api/x" "1000" "bH" (sign "s3cr3t" "GET" "/api/x" "1000" "bh") = false ∧
    verify_hmac_signature "s3cr3T" "GET" "/api/x" "1000" "bh" (sign "s3cr3t" "GET" "/api/x" "1000" "bh") = false :=
  ⟨(hmac_sign_verify_roundtrip "s3cr3t" "GET" "/api/x" "1000" "bh" "s3cr3T" "GEt" "/api/y" "1001" "bH").1,
   (hmac_sign_verify_roundtrip "s3cr3t" "GET" "/api/x" "1000" "bh" "s3cr3T" "GEt" "/api/y" "1001" "bH").2.1 (by decide),
   (hmac_sign_verify_roundtrip "s3cr3t" "GET" "/api/x" "1000" "bh" "s3cr3T" "GEt" "/api/y" "1001" "bH").2.2.1 (by decide),
   (hmac_sign_verify_roundtrip "s3cr3t" "GET" "/api/x" "1000" "bh" "s3cr3T" "GEt" "/api/y" "1001" "bH").2.2.2.1 (by decide),
   (hmac_sign_verify_roundtrip "s3cr3t" "GET" "/api/x" "1000" "bh" "s3cr3T" "GEt" "/api/y" "1001" "bH").2.2.2.2.1 (by decide),
   (hmac_sign_verify_roundtrip "s3cr3t" "GET" "/api/x" "1000" "bh" "s3cr3T" "GEt" "/api/y" "1001" "bH").2.2.2.2.2 (by decide)⟩

end DarkV1
